import Mathlib

set_option maxRecDepth 8000

/-!
Shallow embedding of the dvd tape-script front end: the token model
(src/token.rs), the lexer (src/lexer.rs) and the recursive-descent parser
(src/parser.rs).

Modelling conventions:
* Source text is a list of Unicode scalar values (`List Char`), matching
  Rust `str::chars()`.  The Rust code slices literals out of the input by
  byte index while counting positions per character; the two agree on the
  ASCII fragment, and literals are accumulated directly here.
* The Unicode classes `char::is_alphabetic` / `char::is_alphanumeric` are
  modelled on their ASCII fragment; `char::is_whitespace` is modelled by the
  full Unicode White_Space set.
* `std::time::Duration` values constructed by this parser are always a whole
  number of milliseconds; `Duration` is that number.  `Duration::default()`
  is `0`.
* Rust `f64` parsing of the lexer's digits-and-dots number literals is
  modelled exactly as a fraction `num / 10 ^ k` (IEEE rounding of long
  literals is not modelled; it is the identity on the short literals that
  appear in tape scripts).  `as u64` is the saturating truncating cast.
* `regex::Regex::new` is an external crate; it is modelled by a validity
  predicate that holds for every pattern (all patterns exercised here
  compile).
* The lexer's literal slices are `input[start..position - 1]`, and
  read_char advances `position` only when a character was actually read:
  a token scan that runs into end of input therefore DROPS the final
  character scanned (`Show` at the end of the input lexes as `Sho`), and a
  comment/string/JSON/regex opening delimiter as the very last character
  inverts the slice bounds and panics.  Both behaviours are reproduced.
* Panics (the lexer slice panic above, `Option::unwrap` on a failed
  numeric parse in `parse_time`, and `unreachable!`) are modelled by
  `Option.none` bubbling up to the driver, which reports `POut.panicked`.
-/

/-- TokenType from src/token.rs.  The Rust variant `Type` is spelled
`Type'` because `Type` is a Lean keyword. -/
inductive TokenType where
  | At | Equal | Plus | Percent | Slash | Backslash | Dot | Dash | Minus
  | RightBracket | LeftBracket | Caret
  | Em | Milliseconds | Minutes | Px | Seconds
  | Eof | Illegal
  | Alt | Backspace | Ctrl | Delete | End | Enter | Escape | Home | Insert
  | PageDown | PageUp | Sleep | Space | Tab | Shift
  | Comment | Number | String | Json | Regex | Boolean
  | Down | Left | Right | Up
  | Hide | Output | Require | Set | Show | Source | Type' | Screenshot
  | Copy | Paste | Shell | Env
  | FontFamily | FontSize | Framerate | PlaybackSpeed | Height | Width
  | LetterSpacing | LineHeight | TypingSpeed | Padding | Theme | LoopOffset
  | MarginFill | Margin | WindowBar | WindowBarSize | BorderRadius
  | Wait | WaitTimeout | WaitPattern | CursorBlink
  deriving DecidableEq

/-- Token from src/token.rs. -/
structure Token where
  token_type : TokenType
  literal : String
  line : Nat
  column : Nat
  deriving DecidableEq

/-- Token::default().  The derived Default fills `line`/`column` with
`usize::default() = 0` and the literal with the empty string; the
`token_type` component of a default token is never observable (every
branch of `next_token` overwrites it, and the parser's priming advances
twice before reading a token). -/
def Token.defaultTok : Token := ⟨TokenType.Eof, "", 0, 0⟩

/-- KEYWORDS table plus lookup_identifier from src/token.rs: exact-case
lookup, unknown identifiers become String tokens. -/
def lookup_identifier (s : String) : TokenType :=
  match s with
  | "em" => .Em
  | "px" => .Px
  | "ms" => .Milliseconds
  | "s" => .Seconds
  | "m" => .Minutes
  | "Set" => .Set
  | "Sleep" => .Sleep
  | "Type" => .Type'
  | "Enter" => .Enter
  | "Space" => .Space
  | "Backspace" => .Backspace
  | "Delete" => .Delete
  | "Insert" => .Insert
  | "Ctrl" => .Ctrl
  | "Alt" => .Alt
  | "Shift" => .Shift
  | "Down" => .Down
  | "Left" => .Left
  | "Right" => .Right
  | "Up" => .Up
  | "PageUp" => .PageUp
  | "PageDown" => .PageDown
  | "Tab" => .Tab
  | "Escape" => .Escape
  | "End" => .End
  | "Hide" => .Hide
  | "Require" => .Require
  | "Show" => .Show
  | "Output" => .Output
  | "Shell" => .Shell
  | "FontFamily" => .FontFamily
  | "MarginFill" => .MarginFill
  | "Margin" => .Margin
  | "WindowBar" => .WindowBar
  | "WindowBarSize" => .WindowBarSize
  | "BorderRadius" => .BorderRadius
  | "FontSize" => .FontSize
  | "Framerate" => .Framerate
  | "Height" => .Height
  | "LetterSpacing" => .LetterSpacing
  | "LineHeight" => .LineHeight
  | "PlaybackSpeed" => .PlaybackSpeed
  | "TypingSpeed" => .TypingSpeed
  | "Padding" => .Padding
  | "Theme" => .Theme
  | "Width" => .Width
  | "LoopOffset" => .LoopOffset
  | "WaitTimeout" => .WaitTimeout
  | "WaitPattern" => .WaitPattern
  | "Wait" => .Wait
  | "Source" => .Source
  | "CursorBlink" => .CursorBlink
  | "true" => .Boolean
  | "false" => .Boolean
  | "Screenshot" => .Screenshot
  | "Copy" => .Copy
  | "Paste" => .Paste
  | "Env" => .Env
  | _ => .String

/-- is_setting from src/token.rs. -/
def is_setting (t : TokenType) : Bool :=
  match t with
  | .Shell | .FontFamily | .FontSize | .LetterSpacing | .LineHeight
  | .Framerate | .TypingSpeed | .Theme | .PlaybackSpeed | .Height | .Width
  | .Padding | .LoopOffset | .MarginFill | .Margin | .WindowBar
  | .WindowBarSize | .BorderRadius | .CursorBlink | .WaitTimeout
  | .WaitPattern => true
  | _ => false

/-- is_modifier from src/token.rs. -/
def is_modifier (t : TokenType) : Bool :=
  match t with
  | .Alt | .Shift => true
  | _ => false

/-- Rust char::is_whitespace (Unicode White_Space). -/
def isWhitespaceRust (c : Char) : Bool :=
  [0x09, 0x0a, 0x0b, 0x0c, 0x0d, 0x20, 0x85, 0xa0, 0x1680,
   0x2028, 0x2029, 0x202f, 0x205f, 0x3000].contains c.toNat
  || (decide (0x2000 ≤ c.toNat) && decide (c.toNat ≤ 0x200a))

/-- Rust char::is_alphabetic, modelled on its ASCII fragment. -/
def isAlphabeticRust (c : Char) : Bool := c.isAlpha

/-- Rust char::is_alphanumeric, modelled on its ASCII fragment. -/
def isAlphanumericRust (c : Char) : Bool := c.isAlphanum

/-- Lexer state from src/lexer.rs: the current character, the characters
after it, and the line/column counters.  The byte position is not tracked;
literals are accumulated directly. -/
structure Lexer where
  curr : Option Char
  rest : List Char
  line : Nat
  column : Nat
  deriving DecidableEq

/-- Lexer::new: line starts at 1, column at 0, then one read_char primes
the current character (column becomes 1). -/
def Lexer.new (input : String) : Lexer :=
  { curr := input.toList.head?, rest := input.toList.tail,
    line := 1, column := 1 }

/-- Lexer::read_char: advance the cursor, incrementing the column. -/
def Lexer.read_char (lx : Lexer) : Lexer :=
  { curr := lx.rest.head?, rest := lx.rest.tail,
    line := lx.line, column := lx.column + 1 }

/-- Lexer::peek_char. -/
def Lexer.peek_char (lx : Lexer) : Option Char := lx.rest.head?

/-- Loop body of Lexer::skip_whitespace: consume whitespace, bumping the
line counter and resetting the column on newline (read_char then adds 1). -/
def skipWSGo : Option Char → List Char → Nat → Nat → Lexer
  | none, rest, line, col => ⟨none, rest, line, col⟩
  | some c, rest, line, col =>
    if isWhitespaceRust c then
      let line' := if c = '\n' then line + 1 else line
      let col' := if c = '\n' then 0 else col
      match rest with
      | [] => ⟨none, [], line', col' + 1⟩
      | c' :: r => skipWSGo (some c') r line' (col' + 1)
    else ⟨some c, rest, line, col⟩

/-- Lexer::skip_whitespace. -/
def Lexer.skip_whitespace (lx : Lexer) : Lexer :=
  skipWSGo lx.curr lx.rest lx.line lx.column

/-- Shared loop of Lexer::read_comment / Lexer::read_string: starting from
the character after the cursor, collect characters until a stop character,
end of line, or end of input; the stop character is left as the current
character and is not part of the literal.  Rust slices the literal as
`input[start..position - 1]` and read_char does not advance `position` on
the read that hits end of input, so a scan ended by end of input DROPS the
last character scanned (this off-by-one is reproduced here).  The leading
`[]` case (nothing after the opening delimiter) inverts the Rust slice
bounds and panics; callers guard it. -/
def scanGo (stop : Char → Bool) : List Char → Nat → List Char × Lexer
  | [], col => ([], ⟨none, [], 0, col + 1⟩)
  | c :: rest, col =>
    if stop c then ([], ⟨some c, rest, 0, col + 1⟩)
    else
      match rest with
      | [] => ([], ⟨none, [], 0, col + 2⟩)
      | _ :: _ =>
        let r := scanGo stop rest (col + 1)
        (c :: r.1, r.2)

/-- Lexer::read_comment: text between the `#` and the end of the line.
When the `#` is the last character of the input, the Rust slice
`input[position..position - 1]` panics (`none`). -/
def Lexer.read_comment (lx : Lexer) : Option (String × Lexer) :=
  if lx.rest.isEmpty then none
  else
    let r := scanGo (fun c => c == '\n' || c == '\r') lx.rest lx.column
    some (String.mk r.1, ⟨r.2.curr, r.2.rest, lx.line, r.2.column⟩)

/-- Lexer::read_string: text between the opening delimiter and the closing
delimiter, a line terminator, or end of input, whichever comes first (a
scan ended by end of input drops its last character, see scanGo).  When
the delimiter is the last character of the input, the Rust slice
`input[position..position - 1]` panics (`none`). -/
def Lexer.read_string (lx : Lexer) (endChar : Char) : Option (String × Lexer) :=
  if lx.rest.isEmpty then none
  else
    let r := scanGo (fun c => c == endChar || c == '\n' || c == '\r') lx.rest lx.column
    some (String.mk r.1, ⟨r.2.curr, r.2.rest, lx.line, r.2.column⟩)

/-- Loop of Lexer::read_number / Lexer::read_identifier: the current
character is included and scanning continues while the class predicate
holds.  As in scanGo, the Rust slice `input[start..position - 1]` together
with read_char not advancing `position` at end of input means a scan ended
by end of input DROPS the last character scanned (`Show` at the end of the
input lexes as `Sho`, a single trailing `C` as the empty literal). -/
def readWhileGo (p : Char → Bool) : Option Char → List Char → Nat → List Char × Option Char × List Char × Nat
  | none, rest, col => ([], none, rest, col)
  | some c, rest, col =>
    if p c then
      match rest with
      | [] => ([], none, [], col + 1)
      | c' :: r =>
        let t := readWhileGo p (some c') r (col + 1)
        (c :: t.1, t.2)
    else ([], some c, rest, col)

/-- Lexer::read_number: digits and dots, greedily (multiple dots are not
rejected here; a number ending at end of input loses its last digit, see
readWhileGo). -/
def Lexer.read_number (lx : Lexer) : String × Lexer :=
  let t := readWhileGo (fun c => c.isDigit || c == '.') lx.curr lx.rest lx.column
  (String.mk t.1, ⟨t.2.1, t.2.2.1, lx.line, t.2.2.2⟩)

/-- Lexer::read_identifier: letters, digits, and `. - _ / %` (an
identifier ending at end of input loses its last character, see
readWhileGo). -/
def Lexer.read_identifier (lx : Lexer) : String × Lexer :=
  let t := readWhileGo
    (fun c => isAlphanumericRust c || c == '.' || c == '-' || c == '_' || c == '/' || c == '%')
    lx.curr lx.rest lx.column
  (String.mk t.1, ⟨t.2.1, t.2.2.1, lx.line, t.2.2.2⟩)

/-- Lexer::new_token: a single-character token stamped with the lexer's
current line and column. -/
def Lexer.new_token (lx : Lexer) (tt : TokenType) (ch : Char) : Token :=
  ⟨tt, String.mk [ch], lx.line, lx.column⟩

/-- Lexer::next_token from src/lexer.rs.  Note that only the single-character
operator branches and the Illegal branch build the token with new_token;
the other branches mutate a `Token::default()` whose line/column stay 0.
`none` is the slice panic of read_comment / read_string when the opening
delimiter is the last character of the input. -/
def Lexer.next_token (lx0 : Lexer) : Option (Token × Lexer) :=
  let lx := lx0.skip_whitespace
  match lx.curr with
  | none => some (⟨.Eof, "\x00", 0, 0⟩, lx)
  | some ch =>
    if ch == '@' then some (lx.new_token .At '@', lx.read_char)
    else if ch == '=' then some (lx.new_token .Equal '=', lx.read_char)
    else if ch == ']' then some (lx.new_token .RightBracket ']', lx.read_char)
    else if ch == '[' then some (lx.new_token .LeftBracket '[', lx.read_char)
    else if ch == '-' then some (lx.new_token .Minus '-', lx.read_char)
    else if ch == '%' then some (lx.new_token .Percent '%', lx.read_char)
    else if ch == '^' then some (lx.new_token .Caret '^', lx.read_char)
    else if ch == '\\' then some (lx.new_token .Backslash '\\', lx.read_char)
    else if ch == '#' then
      match lx.read_comment with
      | none => none
      | some r => some (⟨.Comment, r.1, 0, 0⟩, r.2)
    else if ch == '+' then some (lx.new_token .Plus '+', lx.read_char)
    else if ch == '\x7b' then
      match lx.read_string '\x7d' with
      | none => none
      | some r => some (⟨.Json, "\x7b" ++ r.1 ++ "\x7d", 0, 0⟩, r.2.read_char)
    else if ch == '\x60' then
      match lx.read_string '\x60' with
      | none => none
      | some r => some (⟨.String, r.1, 0, 0⟩, r.2.read_char)
    else if ch == '\x27' then
      match lx.read_string '\x27' with
      | none => none
      | some r => some (⟨.String, r.1, 0, 0⟩, r.2.read_char)
    else if ch == '"' then
      match lx.read_string '"' with
      | none => none
      | some r => some (⟨.String, r.1, 0, 0⟩, r.2.read_char)
    else if ch == '/' then
      match lx.read_string '/' with
      | none => none
      | some r => some (⟨.Regex, r.1, 0, 0⟩, r.2.read_char)
    else if ch.isDigit || (ch == '.' && (lx.peek_char.map Char.isDigit).getD false) then
      let r := lx.read_number
      some (⟨.Number, r.1, 0, 0⟩, r.2)
    else if isAlphabeticRust ch then
      let r := lx.read_identifier
      some (⟨lookup_identifier r.1, r.1, 0, 0⟩, r.2)
    else some (lx.new_token .Illegal ch, lx.read_char)

/-- Driver that pulls tokens until Eof (`none` when the lexer panics).
Each non-Eof token consumes at least one input character, so `length + 2`
units of fuel always reach Eof; the fuel argument only makes the
recursion structural. -/
def tokenizeFuel : Nat → Lexer → Option (List Token)
  | 0, _ => some []
  | n + 1, lx =>
    match lx.next_token with
    | none => none
    | some r =>
      if r.1.token_type = .Eof then some [r.1]
      else
        match tokenizeFuel n r.2 with
        | none => none
        | some ts => some (r.1 :: ts)

/-- Tokenize a whole source string (the Eof token is kept at the end;
`none` when the lexer panics). -/
def tokenize (s : String) : Option (List Token) :=
  tokenizeFuel (s.length + 2) (Lexer.new s)

/-- Durations built by this parser are a whole number of milliseconds
(std::time::Duration; Duration::default() is 0). -/
abbrev Duration := Nat

/-- Duration::from_millis. -/
def Duration.from_millis (n : Nat) : Duration := n

/-- Duration::from_secs. -/
def Duration.from_secs (n : Nat) : Duration := 1000 * n

/-- Rust f64 parsing of the lexer's digits-and-dots number literals,
represented exactly as numerator and a power-of-ten denominator.  Fails
(like `str::parse::<f64>`) when there is more than one dot or no digit.
IEEE rounding of long literals is not modelled. -/
def parseF64Go : List Char → Bool → Nat → Nat → Bool → Option (Nat × Nat)
  | [], seenDigit, num, den, _ => if seenDigit then some (num, den) else none
  | c :: cs, seenDigit, num, den, seenDot =>
    if c.isDigit then
      parseF64Go cs true (num * 10 + (c.toNat - 48)) (if seenDot then den * 10 else den) seenDot
    else if c = '.' then
      if seenDot then none else parseF64Go cs seenDigit num den true
    else none

/-- Parse a number literal as an exact fraction `num / den`. -/
def parseF64 (s : String) : Option (Nat × Nat) :=
  parseF64Go s.toList false 0 1 false

/-- Rust `as u64` cast of a non-negative float value `num / den`:
truncation toward zero, saturating at u64::MAX. -/
def u64cast (num den : Nat) : Nat := min (num / den) (2 ^ 64 - 1)

/-- str::ends_with on a single character (by character list, which the
kernel can evaluate). -/
def strEndsWithChar (s : String) (c : Char) : Bool :=
  s.toList.getLast? == some c

/-- Drop the last character of a string (str strip of a one-byte suffix). -/
def strDropLast (s : String) : String :=
  String.mk s.toList.dropLast

/-- Split a character list at `/` separators (the components of a path
string, empty components included). -/
def splitSlash : List Char → List (List Char)
  | [] => [[]]
  | c :: cs =>
    if c = '/' then [] :: splitSlash cs
    else
      match splitSlash cs with
      | [] => [[c]]
      | g :: gs => (c :: g) :: gs

/-- Rust `str::parse::<u32>` with the ParseIntError display texts used by
the Set sub-parser (optional leading `+`, decimal digits, range check). -/
def parseU32 (s : String) : Except String Nat :=
  let cs := s.toList
  if cs.isEmpty then .error "cannot parse integer from empty string"
  else
    let cs' := if cs.headD ' ' = '+' then cs.tail else cs
    if cs'.isEmpty || !(cs'.all Char.isDigit) then
      .error "invalid digit found in string"
    else
      let n := cs'.foldl (fun a c => a * 10 + (c.toNat - 48)) 0
      if n < 2 ^ 32 then .ok n else .error "number too large to fit in target type"

/-- Rust `str::parse::<f32>` / `::<f64>` as used on setting values, in the
exact-fraction model (digits-and-dots literals only). -/
def parseFloatLit (s : String) : Except String (Nat × Nat) :=
  match parseF64 s with
  | some nd => .ok nd
  | none => .error "invalid float literal"

/-- Validity of a pattern under regex::Regex::new.  The regex crate is an
external dependency; it is modelled as always succeeding (every pattern
exercised in this development compiles). -/
def regexCompiles (_ : String) : Bool := true

/-- std::path::Path::file_name of a path string: the last normal component
(trailing slashes and `.` components ignored; none for `..` or root). -/
def pathFileName (s : String) : Option String :=
  let comps := (splitSlash s.toList).filter (fun c => !c.isEmpty && c != ['.'])
  match comps.getLast? with
  | none => none
  | some c => if c = ['.', '.'] then none else some (String.mk c)

/-- std::path::Path::extension: the part of the file name after its last
dot, none when there is no dot or the only dot is leading. -/
def pathExtension (s : String) : Option String :=
  match pathFileName s with
  | none => none
  | some f =>
    let cs := f.toList
    let revExt := cs.reverse.takeWhile (fun c => c ≠ '.')
    if revExt.length = cs.length then none
    else if cs.length - revExt.length - 1 = 0 then none
    else some (String.mk revExt.reverse)

/-- ParseError from src/parser.rs. -/
structure ParseError where
  token : Token
  message : String
  deriving DecidableEq

/-- TypeCommand. -/
structure TypeCommand where
  rate : Option Duration
  text : String
  deriving DecidableEq

/-- SleepCommand. -/
structure SleepCommand where
  duration : Option Duration
  deriving DecidableEq

/-- OutputCommand (PathBuf modelled as the path string). -/
structure OutputCommand where
  path : String
  format : String
  deriving DecidableEq

/-- KeyCommand. -/
structure KeyCommand where
  key : TokenType
  rate : Option Duration
  repeat_count : Nat
  deriving DecidableEq

/-- CtrlCommand (also produced by the Alt and Shift sub-parsers). -/
structure CtrlCommand where
  keys : List String
  rate : Option Duration
  deriving DecidableEq

/-- Setting from src/parser.rs; f32 values are carried in the exact
fraction model. -/
inductive Setting where
  | Shell (s : String)
  | FontSize (n : Nat)
  | FontFamily (s : String)
  | Width (n : Nat)
  | Height (n : Nat)
  | LetterSpacing (v : Nat × Nat)
  | LineHeight (v : Nat × Nat)
  | LoopOffset (v : Nat × Nat)
  | Theme (s : String)
  | Padding (n : Nat)
  | Framerate (n : Nat)
  | PlaybackSpeed (v : Nat × Nat)
  | MarginFill (s : String)
  | Margin (n : Nat)
  | BorderRadius (n : Nat)
  | WindowBar (s : String)
  | WindowBarSize (n : Nat)
  | TypingSpeed (d : Duration)
  | WaitTimeout (d : Duration)
  | WaitPattern (s : String)
  | CursorBlink (b : Bool)
  deriving DecidableEq

/-- SetCommand. -/
structure SetCommand where
  setting : Setting
  deriving DecidableEq

/-- RequireCommand. -/
structure RequireCommand where
  program : String
  deriving DecidableEq

/-- WaitMode (Default is Line). -/
inductive WaitMode where
  | Line
  | Screen
  deriving DecidableEq

/-- WaitCommand; the compiled Regex is carried as its pattern text. -/
structure WaitCommand where
  mode : WaitMode
  pattern : Option String
  timeout : Option Duration
  deriving DecidableEq

/-- ScreenshotCommand. -/
structure ScreenshotCommand where
  path : String
  deriving DecidableEq

/-- CopyCommand. -/
structure CopyCommand where
  text : String
  deriving DecidableEq

/-- EnvCommand (the Rust field `variable` is a Lean keyword, hence
`variable'`). -/
structure EnvCommand where
  variable' : String
  value : String
  deriving DecidableEq

/-- Commands from src/parser.rs (the Rust variant `Type` is `Type'`).
Note that `From<CtrlCommand> for Commands` always yields `Commands::Ctrl`,
so the Alt and Shift sub-parsers also produce the Ctrl variant. -/
inductive Commands where
  | Type' (c : TypeCommand)
  | Sleep (c : SleepCommand)
  | Output (c : OutputCommand)
  | Key (c : KeyCommand)
  | Ctrl (c : CtrlCommand)
  | Alt (c : CtrlCommand)
  | Shift (c : CtrlCommand)
  | Set (c : SetCommand)
  | Require (c : RequireCommand)
  | Wait (c : WaitCommand)
  | Screenshot (c : ScreenshotCommand)
  | Copy (c : CopyCommand)
  | Paste
  | Env (c : EnvCommand)
  | Hide
  | Show
  deriving DecidableEq

/-- The Eof token as the lexer produces it at end of input (literal "\0",
line/column left at the Token::default values). -/
def eofToken : Token := ⟨.Eof, "\x00", 0, 0⟩

/-- Parser state from src/parser.rs.  The parser pulls tokens from the
lexer one at a time; since the lexer is deterministic and independent of
the parser, the stream is materialized up front in `toks` (an exhausted
lexer keeps producing `eofToken`). -/
structure Parser where
  toks : List Token
  current_token : Token
  peek_token : Token
  errors : List ParseError
  deriving DecidableEq

/-- Parser::next_token: shift peek into current and pull a fresh token. -/
def Parser.next_token (p : Parser) : Parser :=
  { toks := p.toks.tail, current_token := p.peek_token,
    peek_token := p.toks.headD eofToken, errors := p.errors }

/-- Parser::new: both lookahead slots start as Token::default(), then two
next_token calls prime them. -/
def Parser.new (ts : List Token) : Parser :=
  (Parser.next_token (Parser.next_token ⟨ts, Token.defaultTok, Token.defaultTok, []⟩))

/-- Parser::parse_time.  A missing number is a recorded error returning
Duration::default(); `base.parse::<f64>().unwrap()` panics (`none`) when
the literal has more than one dot. -/
def Parser.parse_time (p : Parser) : Option (Parser × Duration) :=
  if p.peek_token.token_type = .Number then
    let base := p.peek_token.literal
    let p := p.next_token
    match parseF64 base with
    | none => none
    | some nd =>
      if p.peek_token.token_type = .Milliseconds then
        some (p.next_token, Duration.from_millis (u64cast nd.1 nd.2))
      else if p.peek_token.token_type = .Seconds then
        some (p.next_token, Duration.from_secs (u64cast nd.1 nd.2))
      else if p.peek_token.token_type = .Minutes then
        some (p.next_token, Duration.from_secs (u64cast (60 * nd.1) nd.2))
      else
        some (p, Duration.from_secs (u64cast nd.1 nd.2))
  else
    some ({ p with errors :=
              p.errors ++ [⟨p.current_token, "Expected time after " ++ p.current_token.literal⟩] },
          0)

/-- Parser::parse_speed: an `@` introduces a time value, otherwise
Duration::default(). -/
def Parser.parse_speed (p : Parser) : Option (Parser × Duration) :=
  if p.peek_token.token_type = .At then (p.next_token).parse_time
  else some (p, 0)

/-- Parser::parse_repeat: a following Number is consumed and parsed as u32
with `unwrap_or(1)`; otherwise 1. -/
def Parser.parse_repeat (p : Parser) : Parser × Nat :=
  if p.peek_token.token_type = .Number then
    let count := match parseU32 p.peek_token.literal with
      | .ok n => n
      | .error _ => 1
    (p.next_token, count)
  else (p, 1)

/-- Parser::parse_keypress: optional rate (Some only when nonzero),
optional repeat count, then the key. -/
def Parser.parse_keypress (p : Parser) (command_type : TokenType) :
    Option (Parser × KeyCommand) := do
  let (p, speed) ← p.parse_speed
  let rate := if speed ≠ 0 then some speed else none
  let r := p.parse_repeat
  pure (r.1, ⟨command_type, rate, r.2⟩)

/-- The `while peek == Plus` loop of Parser::parse_ctrl.  Fuel only makes
the recursion structural; every call site passes more fuel than there are
tokens left, and each iteration consumes at least one token. -/
def Parser.ctrl_loop : Nat → Parser → List String → Bool → Parser × Except String (List String)
  | 0, p, keys, _ => (p, .ok keys)
  | fuel + 1, p, keys, in_chain =>
    if p.peek_token.token_type = .Plus then
      let p := p.next_token
      let lit := p.peek_token.literal
      if is_modifier (lookup_identifier lit) then
        if in_chain then Parser.ctrl_loop fuel p.next_token (keys ++ [lit]) in_chain
        else (p, .error "Modifiers must come before other keys")
      else
        if p.peek_token.token_type = .Enter ∨ p.peek_token.token_type = .Space ∨
           p.peek_token.token_type = .Backspace ∨ p.peek_token.token_type = .Delete ∨
           p.peek_token.token_type = .Insert ∨ p.peek_token.token_type = .Tab ∨
           p.peek_token.token_type = .Escape ∨ p.peek_token.token_type = .Minus ∨
           p.peek_token.token_type = .At ∨ p.peek_token.token_type = .LeftBracket ∨
           p.peek_token.token_type = .RightBracket ∨ p.peek_token.token_type = .Caret ∨
           p.peek_token.token_type = .Backslash then
          Parser.ctrl_loop fuel p.next_token (keys ++ [lit]) false
        else if p.peek_token.token_type = .String ∧ lit.length = 1 then
          Parser.ctrl_loop fuel p.next_token (keys ++ [lit]) false
        else (p, .error ("Invalid Ctrl key: " ++ lit))
    else (p, .ok keys)

/-- Parser::parse_ctrl. -/
def Parser.parse_ctrl (p : Parser) : Option (Parser × Except String CtrlCommand) := do
  let (p, dur) ← p.parse_speed
  let rate := if dur ≠ 0 then some dur else none
  let r := Parser.ctrl_loop (p.toks.length + 2) p [] true
  match r.2 with
  | .error e => pure (r.1, .error e)
  | .ok keys =>
    if keys.isEmpty then pure (r.1, .error "Expected at least one key after Ctrl")
    else pure (r.1, .ok ⟨keys, rate⟩)

/-- Parser::parse_alt: exactly one `+<key>`. -/
def Parser.parse_alt (p : Parser) : Option (Parser × Except String CtrlCommand) := do
  let (p, dur) ← p.parse_speed
  let rate := if dur ≠ 0 then some dur else none
  if p.peek_token.token_type ≠ .Plus then
    pure (p, .error ("Expected \x27+\x27 after Alt, got " ++ p.peek_token.literal))
  else
    let p := p.next_token
    if p.peek_token.token_type = .String ∨ p.peek_token.token_type = .Enter ∨
       p.peek_token.token_type = .LeftBracket ∨ p.peek_token.token_type = .RightBracket ∨
       p.peek_token.token_type = .Tab then
      pure (p.next_token, .ok ⟨[p.peek_token.literal], rate⟩)
    else
      pure (p, .error ("Invalid Alt key: " ++ p.peek_token.literal))

/-- Parser::parse_shift: exactly one `+<key>`. -/
def Parser.parse_shift (p : Parser) : Option (Parser × Except String CtrlCommand) := do
  let (p, dur) ← p.parse_speed
  let rate := if dur ≠ 0 then some dur else none
  if p.peek_token.token_type ≠ .Plus then
    pure (p, .error ("Expected \x27+\x27 after Shift, got " ++ p.peek_token.literal))
  else
    let p := p.next_token
    if p.peek_token.token_type = .String ∨ p.peek_token.token_type = .Enter ∨
       p.peek_token.token_type = .LeftBracket ∨ p.peek_token.token_type = .RightBracket ∨
       p.peek_token.token_type = .Tab then
      pure (p.next_token, .ok ⟨[p.peek_token.literal], rate⟩)
    else
      pure (p, .error ("Invalid Alt key: " ++ p.peek_token.literal))

/-- The `while peek == String` loop of Parser::parse_type: each iteration
overwrites the accumulated text with the literal just consumed. -/
def Parser.type_text_loop : Nat → Parser → String → Parser × String
  | 0, p, text => (p, text)
  | fuel + 1, p, text =>
    if p.peek_token.token_type = .String then
      let p := p.next_token
      Parser.type_text_loop fuel p p.current_token.literal
    else (p, text)

/-- Parser::parse_type. -/
def Parser.parse_type (p : Parser) : Option (Parser × Except String TypeCommand) := do
  let (p, speed) ← p.parse_speed
  let rate := if speed ≠ 0 then some speed else none
  if p.peek_token.token_type ≠ .String then
    pure (p, .error (p.current_token.literal ++ " expects string"))
  else
    let r := Parser.type_text_loop (p.toks.length + 2) p ""
    pure (r.1, .ok ⟨rate, r.2⟩)

/-- The `while peek == String` loop of Parser::parse_copy: each iteration
appends the literal just consumed. -/
def Parser.copy_text_loop : Nat → Parser → String → Parser × String
  | 0, p, text => (p, text)
  | fuel + 1, p, text =>
    if p.peek_token.token_type = .String then
      let p := p.next_token
      Parser.copy_text_loop fuel p (text ++ p.current_token.literal)
    else (p, text)

/-- Parser::parse_copy. -/
def Parser.parse_copy (p : Parser) : Option (Parser × Except String CopyCommand) :=
  if p.peek_token.token_type ≠ .String then
    some (p, .error (p.current_token.literal ++ " expects string"))
  else
    let r := Parser.copy_text_loop (p.toks.length + 2) p ""
    some (r.1, .ok ⟨r.2⟩)

/-- Parser::parse_output: one String path; format from the extension, or
".png" for a trailing-slash folder, else an error. -/
def Parser.parse_output (p : Parser) : Option (Parser × Except String OutputCommand) :=
  if p.peek_token.token_type ≠ .String then
    some (p, .error "Expected file path after output")
  else
    match pathExtension p.peek_token.literal with
    | some ext => some (p.next_token, .ok ⟨p.peek_token.literal, "." ++ ext⟩)
    | none =>
      if strEndsWithChar p.peek_token.literal '/' then
        some (p.next_token, .ok ⟨p.peek_token.literal, ".png"⟩)
      else
        some (p, .error "Expected folder with trailing slash")

/-- Parser::parse_sleep: optional number-with-unit duration; a zero or
missing duration is None. -/
def Parser.parse_sleep (p : Parser) : Option (Parser × Except String SleepCommand) := do
  if p.peek_token.token_type = .Number then
    let (p, dur) ← p.parse_time
    if dur ≠ 0 then pure (p, .ok ⟨some dur⟩) else pure (p, .ok ⟨none⟩)
  else pure (p, .ok ⟨none⟩)

/-- Parser::parse_require: one String program name. -/
def Parser.parse_require (p : Parser) : Option (Parser × Except String RequireCommand) :=
  if p.peek_token.token_type ≠ .String then
    some (p, .error (p.current_token.literal ++ " expects one string"))
  else some (p.next_token, .ok ⟨p.peek_token.literal⟩)

/-- Parser::parse_env: a variable-name token and a String value. -/
def Parser.parse_env (p : Parser) : Option (Parser × Except String EnvCommand) :=
  let v := p.peek_token.literal
  let p := p.next_token
  if p.peek_token.token_type ≠ .String then
    some (p, .error (p.current_token.literal ++ " expects string"))
  else some (p.next_token, .ok ⟨v, p.peek_token.literal⟩)

/-- Parser::parse_screenshot: one String path that must end in ".png". -/
def Parser.parse_screenshot (p : Parser) : Option (Parser × Except String ScreenshotCommand) :=
  if p.peek_token.token_type ≠ .String then
    some (p.next_token, .error "Expected path after Screenshot")
  else
    if (match pathExtension p.peek_token.literal with
        | none => true
        | some e => e ≠ "png" : Bool) then
      some (p.next_token, .error "Expected file with .png extension")
    else some (p.next_token, .ok ⟨p.peek_token.literal⟩)

/-- Parser::parse_wait: optional `+Line`/`+Screen` mode, optional `@<time>`
timeout (Some only when nonzero), optional Regex pattern. -/
def Parser.parse_wait (p : Parser) : Option (Parser × Except String WaitCommand) := do
  let step : Parser × Except String WaitMode :=
    if p.peek_token.token_type = .Plus then
      let p := p.next_token
      if p.peek_token.token_type ≠ .String ∨
         (p.peek_token.literal ≠ "Line" ∧ p.peek_token.literal ≠ "Screen") then
        (p, .error "Wait+ expects Line or Screen")
      else
        let m := if p.peek_token.literal = "Line" then WaitMode.Line else WaitMode.Screen
        (p.next_token, .ok m)
    else (p, .ok WaitMode.Line)
  match step.2 with
  | .error e => pure (step.1, .error e)
  | .ok mode =>
    let (p, speed) ← step.1.parse_speed
    let timeout := if speed ≠ 0 then some speed else none
    if p.peek_token.token_type = .Regex then
      let p := p.next_token
      if regexCompiles p.current_token.literal then
        pure (p, .ok ⟨mode, some p.current_token.literal, timeout⟩)
      else
        pure (p, .error ("Invalid regular expression \x27" ++ p.current_token.literal ++
                         "\x27: invalid regex"))
    else pure (p, .ok ⟨mode, none, timeout⟩)

/-- The `parse()?`-then-advance pattern shared by the numeric Set branches:
on a u32 parse failure the error propagates with the state unchanged. -/
def Parser.set_u32 (p : Parser) (mk : Nat → Setting) : Option (Parser × Except String SetCommand) :=
  match parseU32 p.peek_token.literal with
  | .error e => some (p, .error e)
  | .ok n => some (p.next_token, .ok ⟨mk n⟩)

/-- The float analogue of set_u32 for the f32-valued Set branches. -/
def Parser.set_f32 (p : Parser) (mk : Nat × Nat → Setting) :
    Option (Parser × Except String SetCommand) :=
  match parseFloatLit p.peek_token.literal with
  | .error e => some (p, .error e)
  | .ok v => some (p.next_token, .ok ⟨mk v⟩)

/-- The verbatim-text Set branches. -/
def Parser.set_string (p : Parser) (mk : String → Setting) :
    Option (Parser × Except String SetCommand) :=
  some (p.next_token, .ok ⟨mk p.peek_token.literal⟩)

/-- Parser::parse_set from src/parser.rs: a recognized setting keyword then
a per-setting value grammar.  The final `unreachable!` (impossible under
the is_setting guard) is a panic, hence `none`. -/
def Parser.parse_set (p : Parser) : Option (Parser × Except String SetCommand) :=
  if ¬ is_setting p.peek_token.token_type then
    some (p, .error ("Unknown setting: " ++ p.peek_token.literal))
  else
    let setting_type := p.peek_token.token_type
    let p := p.next_token
    match setting_type with
    | .Shell =>
      if p.peek_token.token_type = .String ∨ p.peek_token.token_type = .Json then
        some (p.next_token, .ok ⟨.Shell p.peek_token.literal⟩)
      else
        some (p, .error ("Set Shell expects string or JSON, got " ++ p.peek_token.literal))
    | .FontSize => p.set_u32 .FontSize
    | .FontFamily => p.set_string .FontFamily
    | .Width => p.set_u32 .Width
    | .Height => p.set_u32 .Height
    | .LetterSpacing => p.set_f32 .LetterSpacing
    | .LineHeight => p.set_f32 .LineHeight
    | .LoopOffset =>
      let lit := p.peek_token.literal
      let p := p.next_token
      let p := if p.peek_token.token_type = .Percent then p.next_token else p
      let lit := if strEndsWithChar lit '%' then strDropLast lit else lit
      (match parseFloatLit lit with
       | .error e => some (p, .error e)
       | .ok v => some (p, .ok ⟨.LoopOffset v⟩))
    | .Theme => p.set_string .Theme
    | .Padding => p.set_u32 .Padding
    | .Framerate => p.set_u32 .Framerate
    | .PlaybackSpeed => p.set_f32 .PlaybackSpeed
    | .MarginFill => p.set_string .MarginFill
    | .Margin => p.set_u32 .Margin
    | .BorderRadius => p.set_u32 .BorderRadius
    | .WindowBar => p.set_string .WindowBar
    | .WindowBarSize => p.set_u32 .WindowBarSize
    | .TypingSpeed =>
      if p.peek_token.token_type ≠ .Number then
        some (p, .error ("Set TypingSpeed expects a number, got " ++ p.peek_token.literal))
      else
        (match parseF64 p.peek_token.literal with
         | none => some (p, .error "invalid float literal")
         | some nd =>
           let p := p.next_token
           if p.peek_token.token_type = .Milliseconds then
             some (p.next_token, .ok ⟨.TypingSpeed (Duration.from_millis (u64cast nd.1 nd.2))⟩)
           else if p.peek_token.token_type = .Seconds then
             some (p.next_token, .ok ⟨.TypingSpeed (Duration.from_secs (u64cast nd.1 nd.2))⟩)
           else
             some (p, .ok ⟨.TypingSpeed (Duration.from_secs (u64cast nd.1 nd.2))⟩))
    | .WaitTimeout =>
      if p.peek_token.token_type ≠ .Number then
        some (p, .error ("Set WaitTimeout expects a number, got " ++ p.peek_token.literal))
      else
        (match parseF64 p.peek_token.literal with
         | none => some (p, .error "invalid float literal")
         | some nd =>
           let p := p.next_token
           if p.peek_token.token_type = .Milliseconds then
             some (p.next_token, .ok ⟨.WaitTimeout (Duration.from_millis (u64cast nd.1 nd.2))⟩)
           else if p.peek_token.token_type = .Seconds then
             some (p.next_token, .ok ⟨.WaitTimeout (Duration.from_secs (u64cast nd.1 nd.2))⟩)
           else if p.peek_token.token_type = .Minutes then
             some (p.next_token, .ok ⟨.WaitTimeout (Duration.from_secs (u64cast (60 * nd.1) nd.2))⟩)
           else
             some (p, .ok ⟨.WaitTimeout (Duration.from_secs (u64cast nd.1 nd.2))⟩))
    | .WaitPattern =>
      let pat := p.peek_token.literal
      if regexCompiles pat then some (p.next_token, .ok ⟨.WaitPattern pat⟩)
      else some (p, .error ("Invalid regexp pattern: " ++ pat))
    | .CursorBlink =>
      let lit := p.peek_token.literal
      if lit = "true" then some (p.next_token, .ok ⟨.CursorBlink true⟩)
      else if lit = "false" then some (p.next_token, .ok ⟨.CursorBlink false⟩)
      else some (p, .error ("Set CursorBlink expects true/false, got " ++ lit))
    | _ => none

/-- Lift a sub-parser result into a Commands result, as `Ok(x?.into())`
does in Rust. -/
def liftCmd {α : Type} (f : α → Commands) :
    Option (Parser × Except String α) → Option (Parser × Except String Commands)
  | none => none
  | some (p, .ok a) => some (p, .ok (f a))
  | some (p, .error e) => some (p, .error e)

/-- Parser::get_current_command: dispatch on the current token.  Note
`From<CtrlCommand> for Commands` sends the Alt/Shift sub-parsers' results
to Commands::Ctrl. -/
def Parser.get_current_command (p : Parser) : Option (Parser × Except String Commands) :=
  match p.current_token.token_type with
  | .Space | .Backspace | .Delete | .Insert | .Enter | .Escape | .Tab
  | .Down | .Left | .Right | .Up | .PageUp | .PageDown =>
    (match p.parse_keypress p.current_token.token_type with
     | none => none
     | some (p2, cmd) => some (p2, .ok (Commands.Key cmd)))
  | .Set => liftCmd Commands.Set p.parse_set
  | .Output => liftCmd Commands.Output p.parse_output
  | .Sleep => liftCmd Commands.Sleep p.parse_sleep
  | .Type' => liftCmd Commands.Type' p.parse_type
  | .Ctrl => liftCmd Commands.Ctrl p.parse_ctrl
  | .Alt => liftCmd Commands.Ctrl p.parse_alt
  | .Shift => liftCmd Commands.Ctrl p.parse_shift
  | .Hide => some (p, .ok Commands.Hide)
  | .Require => liftCmd Commands.Require p.parse_require
  | .Show => some (p, .ok Commands.Show)
  | .Wait => liftCmd Commands.Wait p.parse_wait
  | .Screenshot => liftCmd Commands.Screenshot p.parse_screenshot
  | .Copy => liftCmd Commands.Copy p.parse_copy
  | .Paste => some (p, .ok Commands.Paste)
  | .Env => liftCmd Commands.Env p.parse_env
  | _ => some (p, .error ("Invalid command: " ++ p.current_token.literal))

/-- Outcome of running the parser: a normal return, a panic, or fuel
exhaustion (never reached when fuel exceeds the token count). -/
inductive POut (α : Type) where
  | ok (a : α)
  | panicked
  | fuelOut
  deriving DecidableEq

/-- The top-level loop of Parser::parse: skip comments, dispatch, push the
command on success or record a ParseError (with the then-current token) on
failure, and advance one token unconditionally. -/
def Parser.parse_loop : Nat → Parser → List Commands → POut (List Commands × Parser)
  | 0, _, _ => .fuelOut
  | fuel + 1, p, acc =>
    if p.current_token.token_type = .Eof then .ok (acc, p)
    else if p.current_token.token_type = .Comment then
      Parser.parse_loop fuel p.next_token acc
    else
      match p.get_current_command with
      | none => .panicked
      | some (p2, .ok c) => Parser.parse_loop fuel p2.next_token (acc ++ [c])
      | some (p2, .error msg) =>
        Parser.parse_loop fuel
          ({ p2 with errors := p2.errors ++ [(⟨p2.current_token, msg⟩ : ParseError)] }).next_token acc

/-- Lexer::new + Parser::new + Parser::parse + Parser::errors on a whole
source string: the (commands, errors) pair, or the panic outcome (from
the lexer's slice panic or from a parser-side unwrap). -/
def parseTape (s : String) : POut (List Commands × List ParseError) :=
  match tokenize s with
  | none => .panicked
  | some ts =>
    match Parser.parse_loop (ts.length + 4) (Parser.new ts) [] with
    | .ok (cmds, p) => .ok (cmds, p.errors)
    | .panicked => .panicked
    | .fuelOut => .fuelOut

/-- A String token as the lexer produces it (line/column stay at the
Token::default values). -/
def strTok (s : String) : Token := ⟨.String, s, 0, 0⟩

/-- The last element of a list of string literals (empty string for the
empty list). -/
def lastString : List String → String
  | [] => ""
  | [s] => s
  | _ :: s' :: ss => lastString (s' :: ss)

/-- Concatenation of a list of string literals without separators. -/
def joinStrings : List String → String
  | [] => ""
  | s :: ss => s ++ joinStrings ss

/-- Decidable equality for sub-parser results. -/
instance exceptDecEq {ε α : Type} [DecidableEq ε] [DecidableEq α] :
    DecidableEq (Except ε α) := fun x y =>
  match x, y with
  | .ok a, .ok b =>
    if h : a = b then .isTrue (by rw [h]) else .isFalse (by simp [h])
  | .error a, .error b =>
    if h : a = b then .isTrue (by rw [h]) else .isFalse (by simp [h])
  | .ok _, .error _ => .isFalse (by simp)
  | .error _, .ok _ => .isFalse (by simp)

/-- The Type string loop returns immediately when the peek token is not a
String. -/
theorem type_text_loop_stop (fuel : Nat) (p : Parser) (t : String)
    (h : p.peek_token.token_type ≠ .String) :
    Parser.type_text_loop fuel p t = (p, t) := by
  cases fuel with
  | zero => rfl
  | succ f => simp [Parser.type_text_loop, h]

/-- The Copy string loop returns immediately when the peek token is not a
String. -/
theorem copy_text_loop_stop (fuel : Nat) (p : Parser) (t : String)
    (h : p.peek_token.token_type ≠ .String) :
    Parser.copy_text_loop fuel p t = (p, t) := by
  cases fuel with
  | zero => rfl
  | succ f => simp [Parser.copy_text_loop, h]

/-- C1: the claim that `parse()` terminates and returns a (commands,
errors) pair without raising on every input fails on the code: the lexer
scans the trailing `0.0.0` as a single Number token (its literal is
`0.0.` after the end-of-input truncation, still holding two dots), and
Parser::parse_time runs `base.parse::<f64>().unwrap()` on it, which
panics, so parsing `Sleep 0.0.0` does not return at all. -/
theorem c1_parse_panics_on_multidot_number :
    parseTape "Sleep 0.0.0" = POut.panicked := by decide

/-- C9: the claim that every token carries its 1-based start line and the
consumed-character column fails on the code: only the single-character
operator branches and the Illegal branch stamp line/column via new_token;
Eof, Comment, Json, String, Regex, Number and keyword tokens keep the
Token::default values 0/0.  Both String tokens of a two-line input carry
line 0 (trailing space so the literals survive the end-of-input
truncation), while the `@` operator tokens of the same shape carry lines
1 and 2. -/
theorem c9_multichar_tokens_lose_position :
    tokenize "x\ny " =
      some [⟨.String, "x", 0, 0⟩, ⟨.String, "y", 0, 0⟩, ⟨.Eof, "\x00", 0, 0⟩]
    ∧ tokenize "@\n@" =
      some [⟨.At, "@", 1, 1⟩, ⟨.At, "@", 2, 1⟩, ⟨.Eof, "\x00", 0, 0⟩] := by decide

/-- C2 counterexample: the malformed `Screenshot` (no path) consumes the
following `Type` keyword inside parse_screenshot before failing, so the
well-formed `Type "hi"` on the next line produces no command at all —
refuting the claim that a malformed command never prevents later
well-formed commands from appearing. -/
theorem c2_failed_subparser_swallows_next_command :
    parseTape "Screenshot\nType \"hi\"" =
      .ok ([], [⟨⟨.Type', "Type", 0, 0⟩, "Expected path after Screenshot"⟩,
                ⟨⟨.String, "hi", 0, 0⟩, "Invalid command: hi"⟩]) := by decide

/-- C2 (amended): every sub-parser failure is appended to the error list
as a ParseError carrying the then-current token and the message, after
which the loop advances one token and continues; a malformed command does
not prevent later well-formed commands from being parsed provided the
failed sub-parser did not itself consume the later command's leading
token (as `Foo` followed by `Type "hi"` shows). -/
theorem c2_error_recorded_and_loop_continues :
    (∀ (fuel : Nat) (p p2 : Parser) (msg : String) (acc : List Commands),
      p.current_token.token_type ≠ .Eof →
      p.current_token.token_type ≠ .Comment →
      p.get_current_command = some (p2, .error msg) →
      Parser.parse_loop (fuel + 1) p acc =
        Parser.parse_loop fuel
          ({ p2 with errors :=
              p2.errors ++ [(⟨p2.current_token, msg⟩ : ParseError)] }).next_token acc)
    ∧ parseTape "Foo\nType \"hi\"" =
        .ok ([Commands.Type' ⟨none, "hi"⟩],
             [⟨⟨.String, "Foo", 0, 0⟩, "Invalid command: Foo"⟩]) := by
  constructor
  · intro fuel p p2 msg acc h1 h2 h3
    simp [Parser.parse_loop, h1, h2, h3]
  · decide

/-- C2 witness: one concrete loop step over the unknown command `Boo`
(the token stream of the input `Boo `). -/
theorem c2_error_recorded_witness :
    Parser.parse_loop 2 (Parser.new [strTok "Boo", eofToken]) [] =
      Parser.parse_loop 1
        ({ Parser.new [strTok "Boo", eofToken] with errors :=
            (Parser.new [strTok "Boo", eofToken]).errors ++
              [(⟨(Parser.new [strTok "Boo", eofToken]).current_token,
                 "Invalid command: Boo"⟩ : ParseError)] }).next_token [] :=
  c2_error_recorded_and_loop_continues.1 1 (Parser.new [strTok "Boo", eofToken])
    (Parser.new [strTok "Boo", eofToken]) "Invalid command: Boo" []
    (by decide) (by decide) (by decide)

/-- C3 counterexample: `Type "a" "b"` produces text "b", not the claimed
concatenation "ab" — parse_type's string loop overwrites `cmd.text` on
every iteration, keeping only the last literal. -/
theorem c3_type_keeps_last_string :
    parseTape "Type \"a\" \"b\"" = .ok ([Commands.Type' ⟨none, "b"⟩], []) := by decide

/-- C3 (amended): given one or more consecutive String tokens, Type's text
is the literal of the LAST of them (each loop iteration overwrites the
field), while Copy's text is their concatenation without separators; for
both commands at least one String token must follow or the sub-parser
fails with "... expects string". -/
theorem c3_type_last_string_copy_concat :
    (∀ (ss : List String) (s : String) (rest : List Token) (cur : Token)
       (errs : List ParseError) (t : String) (fuel : Nat),
      (rest.headD eofToken).token_type ≠ .String →
      ss.length + 1 ≤ fuel →
      (Parser.type_text_loop fuel ⟨ss.map strTok ++ rest, cur, strTok s, errs⟩ t).2 =
        lastString (s :: ss) ∧
      (Parser.copy_text_loop fuel ⟨ss.map strTok ++ rest, cur, strTok s, errs⟩ t).2 =
        t ++ joinStrings (s :: ss))
    ∧ (∀ p : Parser, p.peek_token.token_type ≠ .At →
        p.peek_token.token_type ≠ .String →
        p.parse_type = some (p, .error (p.current_token.literal ++ " expects string")))
    ∧ (∀ p : Parser, p.peek_token.token_type ≠ .String →
        p.parse_copy = some (p, .error (p.current_token.literal ++ " expects string")))
    ∧ parseTape "Copy \"a\" \"b\"" = .ok ([Commands.Copy ⟨"ab"⟩], []) := by
  refine ⟨?_, ?_, ?_, by decide⟩
  · intro ss
    induction ss with
    | nil =>
      intro s rest cur errs t fuel h hf
      obtain ⟨f, rfl⟩ : ∃ f, fuel = f + 1 := ⟨fuel - 1, by omega⟩
      constructor
      · simp only [List.map_nil, List.nil_append, Parser.type_text_loop]
        simp only [strTok, Parser.next_token]
        rw [type_text_loop_stop _ _ _ h]
        simp [lastString]
      · simp only [List.map_nil, List.nil_append, Parser.copy_text_loop]
        simp only [strTok, Parser.next_token]
        rw [copy_text_loop_stop _ _ _ h]
        simp [joinStrings]
    | cons s' ss' ih =>
      intro s rest cur errs t fuel h hf
      obtain ⟨f, rfl⟩ : ∃ f, fuel = f + 1 := ⟨fuel - 1, by omega⟩
      have hf' : ss'.length + 1 ≤ f := by
        simp only [List.length_cons] at hf; omega
      constructor
      · simp only [List.map_cons, List.cons_append, Parser.type_text_loop]
        simp only [strTok, Parser.next_token, List.tail_cons, List.headD_cons, if_true]
        have := (ih s' rest (strTok s) errs s f h hf').1
        simp only [strTok] at this
        rw [this]
        simp [lastString]
      · simp only [List.map_cons, List.cons_append, Parser.copy_text_loop]
        simp only [strTok, Parser.next_token, List.tail_cons, List.headD_cons, if_true]
        have := (ih s' rest (strTok s) errs (t ++ s) f h hf').2
        simp only [strTok] at this
        rw [this]
        simp [joinStrings, String.append_assoc]
  · intro p h1 h2
    simp [Parser.parse_type, Parser.parse_speed, h1, h2]
  · intro p h
    simp [Parser.parse_copy, h]

/-- C3 witness: the loop lemmas at the concrete run "a" "b" followed by
Eof, as after `Type "a" "b"` / `Copy "a" "b"`. -/
theorem c3_type_last_string_copy_concat_witness :
    (Parser.type_text_loop 3
      ⟨[strTok "b", eofToken], ⟨.Type', "Type", 0, 0⟩, strTok "a", []⟩ "").2 = "b"
    ∧ (Parser.copy_text_loop 3
      ⟨[strTok "b", eofToken], ⟨.Copy, "Copy", 0, 0⟩, strTok "a", []⟩ "").2 = "ab" :=
  ⟨(c3_type_last_string_copy_concat.1 ["b"] "a" [eofToken] ⟨.Type', "Type", 0, 0⟩ [] "" 3
      (by decide) (by decide)).1,
   (c3_type_last_string_copy_concat.1 ["b"] "a" [eofToken] ⟨.Copy, "Copy", 0, 0⟩ [] "" 3
      (by decide) (by decide)).2⟩

/-- C4: the claimed scenario describes parse_ctrl correctly, but as whole
inputs both sides fail on the code because of the lexer's end-of-input
slice bug: `Ctrl+Shift+C` lexes its trailing key as the empty literal and
parses to zero commands with "Invalid Ctrl key: ", and `Ctrl+C+Shift`
lexes the trailing modifier as `Shif` (not a modifier keyword), failing
with "Invalid Ctrl key: Shif" instead of the modifier-order error.  With
a newline after the combination the claimed behaviour holds exactly: one
Ctrl command with keys ["Shift","C"] and zero errors, respectively the
modifier-order ParseError (plus the one-token-recovery cascade error);
and in general any `+Alt`/`+Shift` group after a non-modifier key is
rejected with "Modifiers must come before other keys". -/
theorem c4_ctrl_modifier_order :
    parseTape "Ctrl+Shift+C" =
      .ok ([], [⟨⟨.Plus, "+", 1, 11⟩, "Invalid Ctrl key: "⟩,
                ⟨⟨.String, "", 0, 0⟩, "Invalid command: "⟩])
    ∧ parseTape "Ctrl+C+Shift" =
      .ok ([], [⟨⟨.Plus, "+", 1, 7⟩, "Invalid Ctrl key: Shif"⟩,
                ⟨⟨.String, "Shif", 0, 0⟩, "Invalid command: Shif"⟩])
    ∧ parseTape "Ctrl+Shift+C\n" = .ok ([Commands.Ctrl ⟨["Shift", "C"], none⟩], [])
    ∧ parseTape "Ctrl+C+Shift\n" =
        .ok ([], [⟨⟨.Plus, "+", 1, 7⟩, "Modifiers must come before other keys"⟩,
                  ⟨⟨.Shift, "Shift", 0, 0⟩, "Expected \x27+\x27 after Shift, got \x00"⟩])
    ∧ (∀ (fuel : Nat) (p : Parser) (keys : List String),
        p.peek_token.token_type = .Plus →
        is_modifier (lookup_identifier (p.next_token).peek_token.literal) = true →
        Parser.ctrl_loop (fuel + 1) p keys false =
          (p.next_token, .error "Modifiers must come before other keys")) := by
  refine ⟨by decide, by decide, by decide, by decide, ?_⟩
  intro fuel p keys h1 h2
  simp [Parser.ctrl_loop, h1, h2]

/-- C4 witness: the modifier-after-key rejection at a concrete state whose
next group is `+Shift`. -/
theorem c4_ctrl_modifier_order_witness :
    Parser.ctrl_loop 1 ⟨[⟨.Shift, "Shift", 0, 0⟩], eofToken, ⟨.Plus, "+", 1, 1⟩, []⟩ ["C"] false =
      ((⟨[⟨.Shift, "Shift", 0, 0⟩], eofToken, ⟨.Plus, "+", 1, 1⟩, []⟩ : Parser).next_token,
       .error "Modifiers must come before other keys") :=
  c4_ctrl_modifier_order.2.2.2.2 0 ⟨[⟨.Shift, "Shift", 0, 0⟩], eofToken, ⟨.Plus, "+", 1, 1⟩, []⟩
    ["C"] (by decide) (by decide)

/-- C5: the unit semantics are right at the token level — a Number token
followed by the ms/s/m unit tokens (or none) denotes milliseconds,
seconds, sixty-times seconds, or default seconds (general conjunct) — but
the claimed concrete readings fail as whole inputs because the lexer
drops the last character of a token at end of input: `Sleep 500ms` lexes
its unit as `m` (minutes: 30000 s), `Sleep 1m` loses the unit entirely
(1 s plus a stray-token error), and `Sleep 3` lexes the number as the
empty literal, on which parse_time's unwrap panics.  With a newline after
the time expression the four claimed readings hold exactly. -/
theorem c5_duration_unit_semantics :
    (∀ (p : Parser) (n : Nat),
      p.peek_token.token_type = .Number →
      parseF64 p.peek_token.literal = some (n, 1) →
      n < 2 ^ 64 →
      ((p.next_token).peek_token.token_type = .Milliseconds →
        p.parse_time = some ((p.next_token).next_token, n)) ∧
      ((p.next_token).peek_token.token_type = .Seconds →
        p.parse_time = some ((p.next_token).next_token, 1000 * n)) ∧
      ((p.next_token).peek_token.token_type = .Minutes → 60 * n < 2 ^ 64 →
        p.parse_time = some ((p.next_token).next_token, 1000 * (60 * n))) ∧
      ((p.next_token).peek_token.token_type ≠ .Milliseconds →
       (p.next_token).peek_token.token_type ≠ .Seconds →
       (p.next_token).peek_token.token_type ≠ .Minutes →
        p.parse_time = some (p.next_token, 1000 * n)))
    ∧ parseTape "Sleep 500ms" = .ok ([Commands.Sleep ⟨some 30000000⟩], [])
    ∧ parseTape "Sleep 1m" =
        .ok ([Commands.Sleep ⟨some 1000⟩], [⟨⟨.String, "", 0, 0⟩, "Invalid command: "⟩])
    ∧ parseTape "Sleep 3" = POut.panicked
    ∧ parseTape "Sleep 500ms\n" = .ok ([Commands.Sleep ⟨some 500⟩], [])
    ∧ parseTape "Sleep 2s\n" = .ok ([Commands.Sleep ⟨some 2000⟩], [])
    ∧ parseTape "Sleep 1m\n" = .ok ([Commands.Sleep ⟨some 60000⟩], [])
    ∧ parseTape "Sleep 3\n" = .ok ([Commands.Sleep ⟨some 3000⟩], []) := by
  refine ⟨?_, by decide, by decide, by decide, by decide, by decide, by decide, by decide⟩
  intro p n h1 h2 h3
  have hc : u64cast n 1 = n := by
    simp only [u64cast, Nat.div_one]
    omega
  refine ⟨?_, ?_, ?_, ?_⟩
  · intro hu
    simp [Parser.parse_time, h1, h2, hu, Duration.from_millis, hc]
  · intro hu
    simp [Parser.parse_time, h1, h2, hu, Duration.from_secs, hc]
  · intro hu h60
    have hc60 : u64cast (60 * n) 1 = 60 * n := by
      simp only [u64cast, Nat.div_one]
      omega
    simp [Parser.parse_time, h1, h2, hu, Duration.from_secs, hc60]
  · intro hu1 hu2 hu3
    simp [Parser.parse_time, h1, h2, hu1, hu2, hu3, Duration.from_secs, hc]

/-- C5 witness: the ms case on the token stream of `Sleep 500ms` followed
by more input (so the unit token really is Milliseconds). -/
theorem c5_duration_unit_semantics_witness :
    (Parser.new [⟨.Sleep, "Sleep", 0, 0⟩, ⟨.Number, "500", 0, 0⟩,
                 ⟨.Milliseconds, "ms", 0, 0⟩, eofToken]).parse_time =
      some (((Parser.new [⟨.Sleep, "Sleep", 0, 0⟩, ⟨.Number, "500", 0, 0⟩,
                          ⟨.Milliseconds, "ms", 0, 0⟩, eofToken]).next_token).next_token, 500) :=
  (c5_duration_unit_semantics.1
    (Parser.new [⟨.Sleep, "Sleep", 0, 0⟩, ⟨.Number, "500", 0, 0⟩,
                 ⟨.Milliseconds, "ms", 0, 0⟩, eofToken]) 500
    (by decide) (by decide) (by decide)).1 (by decide)

/-- C6 counterexample: `Enter@0s` (with a newline so the unit token
survives the lexer's end-of-input truncation) writes an explicit `@<time>`
rate, but the produced key command has rate None — parse_speed returns
Duration::default() for a written zero duration, and the Some-wrapping
compares against that same default, conflating "no rate" with "zero
rate". -/
theorem c6_written_zero_rate_is_none :
    parseTape "Enter@0s\n" = .ok ([Commands.Key ⟨.Enter, none, 1⟩], []) := by decide

/-- C6 (amended): the rate of a key-press command is None when no `@`
follows the keyword, and also when the written `@<time>` parses to a zero
duration; it is Some d exactly when the parsed duration d is nonzero. -/
theorem c6_rate_none_iff_absent_or_zero :
    (∀ (p p2 : Parser) (cmd : KeyCommand) (k : TokenType),
      p.peek_token.token_type ≠ .At →
      p.parse_keypress k = some (p2, cmd) → cmd.rate = none)
    ∧ (∀ (p p2 : Parser) (d : Duration) (k : TokenType),
      p.parse_speed = some (p2, d) → d ≠ 0 →
      p.parse_keypress k = some ((p2.parse_repeat).1, ⟨k, some d, (p2.parse_repeat).2⟩))
    ∧ (∀ (p p2 : Parser) (d : Duration) (k : TokenType),
      p.parse_speed = some (p2, d) → d = 0 →
      p.parse_keypress k = some ((p2.parse_repeat).1, ⟨k, none, (p2.parse_repeat).2⟩))
    ∧ parseTape "Enter@500ms\n" = .ok ([Commands.Key ⟨.Enter, some 500, 1⟩], []) := by
  refine ⟨?_, ?_, ?_, by decide⟩
  · intro p p2 cmd k h1 h2
    simp [Parser.parse_keypress, Parser.parse_speed, h1] at h2
    rw [← h2.2]
  · intro p p2 d k h1 h2
    simp [Parser.parse_keypress, h1, h2]
  · intro p p2 d k h1 h2
    subst h2
    simp [Parser.parse_keypress, h1]

/-- C6 witness: a nonzero written rate on the token stream of
`Enter@500ms` followed by more input. -/
theorem c6_rate_none_iff_absent_or_zero_witness :
    (Parser.new [⟨.Enter, "Enter", 0, 0⟩, ⟨.At, "@", 1, 6⟩, ⟨.Number, "500", 0, 0⟩,
                 ⟨.Milliseconds, "ms", 0, 0⟩, eofToken]).parse_keypress .Enter =
      some ((((⟨[], ⟨.Milliseconds, "ms", 0, 0⟩, eofToken, []⟩ : Parser).parse_repeat).1,
             ⟨.Enter, some 500,
              ((⟨[], ⟨.Milliseconds, "ms", 0, 0⟩, eofToken, []⟩ : Parser).parse_repeat).2⟩)) :=
  c6_rate_none_iff_absent_or_zero.2.1
    (Parser.new [⟨.Enter, "Enter", 0, 0⟩, ⟨.At, "@", 1, 6⟩, ⟨.Number, "500", 0, 0⟩,
                 ⟨.Milliseconds, "ms", 0, 0⟩, eofToken])
    ⟨[], ⟨.Milliseconds, "ms", 0, 0⟩, eofToken, []⟩ 500 .Enter (by decide) (by decide)

/-- C7: Output requires exactly one String path token; the command's
format is the path's extension (with its dot) when there is one, ".png"
when the path has no extension but ends with a slash, and otherwise the
sub-parser fails with "Expected folder with trailing slash" — in
particular `Output foo` yields that ParseError and no command (the
one-token-recovery cascade error then lands on the literal `fo`, the
trailing identifier as truncated by the lexer at end of input). -/
theorem c7_output_format_rules :
    (∀ (p : Parser) (e : String),
      p.peek_token.token_type = .String →
      pathExtension p.peek_token.literal = some e →
      p.parse_output = some (p.next_token, .ok ⟨p.peek_token.literal, "." ++ e⟩))
    ∧ (∀ p : Parser,
      p.peek_token.token_type = .String →
      pathExtension p.peek_token.literal = none →
      strEndsWithChar p.peek_token.literal '/' = true →
      p.parse_output = some (p.next_token, .ok ⟨p.peek_token.literal, ".png"⟩))
    ∧ (∀ p : Parser,
      p.peek_token.token_type = .String →
      pathExtension p.peek_token.literal = none →
      strEndsWithChar p.peek_token.literal '/' = false →
      p.parse_output = some (p, .error "Expected folder with trailing slash"))
    ∧ (∀ p : Parser,
      p.peek_token.token_type ≠ .String →
      p.parse_output = some (p, .error "Expected file path after output"))
    ∧ parseTape "Output foo" =
        .ok ([], [⟨⟨.Output, "Output", 0, 0⟩, "Expected folder with trailing slash"⟩,
                  ⟨⟨.String, "fo", 0, 0⟩, "Invalid command: fo"⟩]) := by
  refine ⟨?_, ?_, ?_, ?_, by decide⟩
  · intro p e h1 h2
    simp [Parser.parse_output, h1, h2]
  · intro p h1 h2 h3
    simp [Parser.parse_output, h1, h2, h3]
  · intro p h1 h2 h3
    simp [Parser.parse_output, h1, h2, h3]
  · intro p h
    simp [Parser.parse_output, h]

/-- C7 witness: the extension case on the token stream of
`Output demo.gif` followed by more input (so the path literal is not
truncated). -/
theorem c7_output_format_rules_witness :
    (Parser.new [⟨.Output, "Output", 0, 0⟩, ⟨.String, "demo.gif", 0, 0⟩,
                 eofToken]).parse_output =
      some ((Parser.new [⟨.Output, "Output", 0, 0⟩, ⟨.String, "demo.gif", 0, 0⟩,
                         eofToken]).next_token,
            .ok ⟨"demo.gif", ".gif"⟩) :=
  c7_output_format_rules.1
    (Parser.new [⟨.Output, "Output", 0, 0⟩, ⟨.String, "demo.gif", 0, 0⟩, eofToken]) "gif"
    (by decide) (by decide)

/-- C8 counterexample: `Up 0` followed by a newline (so the Number
literal survives the lexer's end-of-input truncation) produces a key
command with repeat_count 0 — parse_repeat returns the parsed u32 value
unchanged, so the claimed lower bound of 1 does not hold. -/
theorem c8_zero_repeat_count :
    parseTape "Up 0\n" = .ok ([Commands.Key ⟨.Up, none, 0⟩], []) := by decide

/-- C8 (amended): if a Number token follows, parse_repeat consumes it and
returns its u32 value (which may be 0), falling back to 1 only when the
literal fails to parse as u32; with no Number it defaults to 1.  The
repeat_count of a produced key command is therefore not always ≥ 1.  As
whole inputs, `Up 5` with a newline yields 5, while `Up 0` at end of
input lexes the number as the empty literal, whose failed u32 parse falls
back to 1 via unwrap_or. -/
theorem c8_repeat_value_and_default :
    (∀ p : Parser, p.peek_token.token_type ≠ .Number → p.parse_repeat = (p, 1))
    ∧ (∀ (p : Parser) (n : Nat), p.peek_token.token_type = .Number →
        parseU32 p.peek_token.literal = .ok n →
        p.parse_repeat = (p.next_token, n))
    ∧ (∀ (p : Parser) (e : String), p.peek_token.token_type = .Number →
        parseU32 p.peek_token.literal = .error e →
        p.parse_repeat = (p.next_token, 1))
    ∧ parseTape "Up 5\n" = .ok ([Commands.Key ⟨.Up, none, 5⟩], [])
    ∧ parseTape "Up 0" = .ok ([Commands.Key ⟨.Up, none, 1⟩], []) := by
  refine ⟨?_, ?_, ?_, by decide, by decide⟩
  · intro p h
    simp [Parser.parse_repeat, h]
  · intro p n h1 h2
    simp [Parser.parse_repeat, h1, h2]
  · intro p e h1 h2
    simp [Parser.parse_repeat, h1, h2]

/-- C8 witness: the consumed-number case on the token stream of `Up 5`
followed by more input. -/
theorem c8_repeat_value_and_default_witness :
    (Parser.new [⟨.Up, "Up", 0, 0⟩, ⟨.Number, "5", 0, 0⟩, eofToken]).parse_repeat =
      ((Parser.new [⟨.Up, "Up", 0, 0⟩, ⟨.Number, "5", 0, 0⟩, eofToken]).next_token, 5) :=
  c8_repeat_value_and_default.2.1
    (Parser.new [⟨.Up, "Up", 0, 0⟩, ⟨.Number, "5", 0, 0⟩, eofToken]) 5
    (by decide) (by decide)

/-- C10: the truncation-before-scaling semantics are right at the token
level — a fractional Number n/d in a time position is truncated to a
whole number of the stated unit (floor of n/d milliseconds or seconds),
while with unit `m` the value is first multiplied by 60 and then
truncated (general conjunct) — but the claimed `m`-unit readings fail as
whole inputs because the lexer drops the last character of a token at end
of input: in `Sleep 2.5m` and `Set WaitTimeout 2.5m` the trailing `m`
lexes as the empty literal, the value defaults to seconds (2 s, not
150 s) and the stray token records an extra error.  With a newline after
the time expression the claimed readings hold exactly: 2.5s gives 2
seconds (2000 ms, not 2500 ms) and 2.5m gives 150 seconds, in parse_time
and in Set TypingSpeed / Set WaitTimeout alike. -/
theorem c10_fractional_time_truncation :
    (∀ (p : Parser) (n d : Nat),
      p.peek_token.token_type = .Number →
      parseF64 p.peek_token.literal = some (n, d) →
      n / d < 2 ^ 64 → 60 * n / d < 2 ^ 64 →
      ((p.next_token).peek_token.token_type = .Milliseconds →
        p.parse_time = some ((p.next_token).next_token, Duration.from_millis (n / d))) ∧
      ((p.next_token).peek_token.token_type = .Seconds →
        p.parse_time = some ((p.next_token).next_token, Duration.from_secs (n / d))) ∧
      ((p.next_token).peek_token.token_type = .Minutes →
        p.parse_time = some ((p.next_token).next_token, Duration.from_secs (60 * n / d))) ∧
      ((p.next_token).peek_token.token_type ≠ .Milliseconds →
       (p.next_token).peek_token.token_type ≠ .Seconds →
       (p.next_token).peek_token.token_type ≠ .Minutes →
        p.parse_time = some (p.next_token, Duration.from_secs (n / d))))
    ∧ parseTape "Sleep 2.5m" =
        .ok ([Commands.Sleep ⟨some 2000⟩], [⟨⟨.String, "", 0, 0⟩, "Invalid command: "⟩])
    ∧ parseTape "Set WaitTimeout 2.5m" =
        .ok ([Commands.Set ⟨.WaitTimeout 2000⟩], [⟨⟨.String, "", 0, 0⟩, "Invalid command: "⟩])
    ∧ parseTape "Sleep 2.5s\n" = .ok ([Commands.Sleep ⟨some 2000⟩], [])
    ∧ parseTape "Sleep 2.5m\n" = .ok ([Commands.Sleep ⟨some 150000⟩], [])
    ∧ parseTape "Set TypingSpeed 2.5s\n" = .ok ([Commands.Set ⟨.TypingSpeed 2000⟩], [])
    ∧ parseTape "Set WaitTimeout 2.5m\n" = .ok ([Commands.Set ⟨.WaitTimeout 150000⟩], []) := by
  refine ⟨?_, by decide, by decide, by decide, by decide, by decide, by decide⟩
  intro p n d h1 h2 h3 h4
  have hc : u64cast n d = n / d := by
    simp only [u64cast]
    omega
  have hc60 : u64cast (60 * n) d = 60 * n / d := by
    simp only [u64cast]
    omega
  refine ⟨?_, ?_, ?_, ?_⟩
  · intro hu
    simp [Parser.parse_time, h1, h2, hu, hc]
  · intro hu
    simp [Parser.parse_time, h1, h2, hu, hc]
  · intro hu
    simp [Parser.parse_time, h1, h2, hu, hc60]
  · intro hu1 hu2 hu3
    simp [Parser.parse_time, h1, h2, hu1, hu2, hu3, hc]

/-- C10 witness: the seconds case on the token stream of `Sleep 2.5s`
followed by more input, where 2.5 is the fraction 25/10. -/
theorem c10_fractional_time_truncation_witness :
    (Parser.new [⟨.Sleep, "Sleep", 0, 0⟩, ⟨.Number, "2.5", 0, 0⟩,
                 ⟨.Seconds, "s", 0, 0⟩, eofToken]).parse_time =
      some (((Parser.new [⟨.Sleep, "Sleep", 0, 0⟩, ⟨.Number, "2.5", 0, 0⟩,
                          ⟨.Seconds, "s", 0, 0⟩, eofToken]).next_token).next_token, 2000) :=
  ((c10_fractional_time_truncation.1
    (Parser.new [⟨.Sleep, "Sleep", 0, 0⟩, ⟨.Number, "2.5", 0, 0⟩,
                 ⟨.Seconds, "s", 0, 0⟩, eofToken]) 25 10
    (by decide) (by decide) (by decide) (by decide)).2.1) (by decide)
